import Mathlib

/-!
Verification of the configuration-resolution core of the mapchete repository:
`mapchete/config_utils.py` (`get_clean_configuration`) and
`mapchete/cli/default/pyramid.py` (`raster2pyramid`, `_get_zoom`,
`DTYPE_RANGES`).  Python values are embedded shallowly: YAML/dict fields
become `Option` fields, raised exceptions become an `Except PyErr` result,
rasters and the external configuration engine become explicit parameters.
Coordinates and pixel values are rationals.
-/

/-- Python exceptions raised (or raisable) by the modelled code paths.
Each constructor corresponds to one exception class as raised at a
concrete site in the source: `IOError`/`Exception`/`ValueError` are raised
explicitly with a message, `KeyError` comes from a failing dict lookup
(`DTYPE_RANGES[input_dtype]`), `unboundLocalError` from reading a local
variable that no branch assigned (`_get_zoom` falling through for zoom
lists longer than two), and `unpackError` is the `ValueError` raised by
tuple unpacking `left, bottom, right, top = bounds` when `bounds` does not
have exactly four items (its Python message text depends on the length). -/
inductive PyErr where
  | ioError (msg : String)
  | exception (msg : String)
  | valueError (msg : String)
  | keyError
  | unboundLocalError
  | unpackError
  deriving DecidableEq, Repr

/-- Classification of the modelled Python exceptions into the spec's error
taxonomy (spec section 7): the deliberately raised validation errors
(`Exception`, `ValueError` with a message, at the explicit `raise` sites)
are what the spec calls `ConfigurationError`; accidental failures
(`KeyError`, unbound locals, tuple-unpacking errors) and I/O errors are
not. -/
def PyErr.isConfigurationError : PyErr → Bool
  | .exception _ => true
  | .valueError _ => true
  | _ => false

/-- The fields of the parsed mapchete job-description file (`raw_config` in
`get_clean_configuration`) that the modelled code reads after the
file-existence checks: the zoom fields and the bounds field.  A missing
YAML key (Python `KeyError` caught by `try/except`) is `none`. -/
structure RawConfig where
  process_zoom : Option Int
  process_minzoom : Option Int
  process_maxzoom : Option Int
  process_bounds : Option (List ℚ)

/-- Python `range(mn, mx + 1)` on integers: the ascending list of integers
from `mn` to `mx` inclusive (empty when `mx < mn`). -/
def intRange (mn mx : Int) : List Int :=
  (List.range (mx + 1 - mn).toNat).map (fun (i : Nat) => mn + (i : Int))

/-- Lines 63-74 of `config_utils.py`: try `raw_config["process_zoom"]`,
yielding a one-element list; on `KeyError` try the
`process_minzoom`/`process_maxzoom` pair, yielding a two-element list;
otherwise `None`.  (If `process_minzoom` is present but `process_maxzoom`
is missing, the `except` branch still leaves `zoom = None`.) -/
def configZoomList (raw : RawConfig) : Option (List Int) :=
  match raw.process_zoom with
  | some z => some [z]
  | none =>
    match raw.process_minzoom, raw.process_maxzoom with
    | some mn, some mx => some [mn, mx]
    | _, _ => none

/-- Lines 75-77 of `config_utils.py`: `if additional_parameters["zoom"]:`
overwrites the config-file zoom with the caller-supplied zoom when the
latter is truthy (a non-empty list); `None` and `[]` are falsy and leave
the config-file value in place. -/
def effectiveZoom (explicit : Option (List Int)) (raw : RawConfig) : Option (List Int) :=
  match explicit with
  | some (x :: xs) => some (x :: xs)
  | _ => configZoomList raw

/-- Lines 63-100 of `config_utils.py`: resolve the zoom levels.  A falsy
effective zoom raises `Exception("No zoom level(s) provided.")`; a
one-element list is taken as-is with no further checks; a two-element list
is checked for negative entries (`ValueError("Zoom levels must be greater
0.")`), reordered, and expanded with `range(minzoom, maxzoom + 1)`; any
longer list raises `ValueError("Zoom level parameter requires one or two
value(s).")`. -/
def resolveZoomLevels (explicit : Option (List Int)) (raw : RawConfig) :
    Except PyErr (List Int) :=
  match effectiveZoom explicit raw with
  | none => .error (.exception "No zoom level(s) provided.")
  | some [] => .error (.exception "No zoom level(s) provided.")
  | some [z] => .ok [z]
  | some [a, b] =>
    if a < 0 ∨ b < 0 then .error (.valueError "Zoom levels must be greater 0.")
    else if a < b then .ok (intRange a b)
    else .ok (intRange b a)
  | some _ => .error (.valueError "Zoom level parameter requires one or two value(s).")

/-- Lines 112-125 of `config_utils.py`: bounds come from
`raw_config["process_bounds"]` (or `None` on `KeyError`); a truthy
caller-supplied bounds value must have exactly 4 items
(`ValueError("Invalid number of process bounds.")`) and then overrides the
config-file bounds.  A falsy override (`None` or an empty list) is
ignored. -/
def resolveBounds (raw_bounds override : Option (List ℚ)) :
    Except PyErr (Option (List ℚ)) :=
  match override with
  | some (x :: xs) =>
    if (x :: xs).length = 4 then .ok (some (x :: xs))
    else .error (.valueError "Invalid number of process bounds.")
  | _ => .ok raw_bounds

/-- An axis-aligned bounding box `(left, bottom, right, top)`, as returned
by `raster.bounds` and as built from a 4-item bounds list.  The source
turns such a box into a shapely `Polygon` via its four corner points. -/
structure Bounds where
  left : ℚ
  bottom : ℚ
  right : ℚ
  top : ℚ
  deriving DecidableEq, Repr

/-- Planar intersection of two closed axis-aligned boxes: `none` when they
are disjoint, otherwise the (possibly degenerate) common box. -/
def Bounds.inter (r s : Bounds) : Option Bounds :=
  let l := max r.left s.left
  let b := max r.bottom s.bottom
  let ri := min r.right s.right
  let t := min r.top s.top
  if l ≤ ri ∧ b ≤ t then some ⟨l, b, ri, t⟩ else none

/-- A box with zero width or zero height: its polygon degenerates to a
line segment or a point. -/
def Bounds.isDegenerate (r : Bounds) : Bool :=
  r.left == r.right || r.bottom == r.top

/-- Geometry values reachable in the modelled code path: a planar union of
bounding boxes (the result of `cascaded_union` over bbox polygons, or of
intersecting such a union with one clip box), or the empty `Polygon()` the
source substitutes for unsupported intersection results.  The shapely
library is an external collaborator (spec sections 4.2 and 6); it is
modelled here on the box unions that actually occur. -/
inductive Geometry where
  | rects (rs : List Bounds)
  | emptyPolygon
  deriving DecidableEq, Repr

/-- Shapely `is_empty` on the modelled geometries: the substituted
`Polygon()` is empty, and a box union is empty exactly when it has no
parts (an empty intersection result is `GEOMETRYCOLLECTION EMPTY`). -/
def Geometry.isEmpty : Geometry → Bool
  | .emptyPolygon => true
  | .rects rs => rs.isEmpty

/-- Intersection of a union of boxes with one clip box: the pairwise
intersections, dropping empty ones. -/
def intersectRects (rs : List Bounds) (s : Bounds) : List Bounds :=
  rs.filterMap (fun r => r.inter s)

/-- Shapely `geom_type` of an intersection result, modelled from the
GeometryIntersector contract (spec section 4.2) on box unions: no parts is
the empty `GeometryCollection`; only degenerate parts is a puntal or
lineal type; a mix of areal and degenerate parts is a
`GeometryCollection`; otherwise the result is areal (`Polygon` /
`MultiPolygon`).  Only membership of the type in the allowed list below is
observable in the source. -/
def rectsGeomType (rs : List Bounds) : String :=
  if rs.isEmpty then "GeometryCollection"
  else if rs.all (fun r => r.isDegenerate) then
    if rs.all (fun r => r.left == r.right && r.bottom == r.top) then
      if rs.length = 1 then "Point" else "MultiPoint"
    else
      if rs.length = 1 then "LineString" else "MultiLineString"
  else if rs.any (fun r => r.isDegenerate) then "GeometryCollection"
  else if rs.length = 1 then "Polygon" else "MultiPolygon"

/-- Lines 153-158 of `config_utils.py`: the geometry types the
intersection result is allowed to keep. -/
def allowedGeomTypes : List String :=
  ["Polygon", "MultiPolygon", "GeometryCollection"]

/-- Lines 145-162 of `config_utils.py`, truthy-bounds case: build the user
bbox polygon, intersect the files area with it, and replace the result
with the empty `Polygon()` when its `geom_type` is not in the allowed
list. -/
def clipArea (bboxes : List Bounds) (user_bbox : Bounds) : Geometry :=
  let out := intersectRects bboxes user_bbox
  if rectsGeomType out ∈ allowedGeomTypes then .rects out else .emptyPolygon

/-- Lines 143-162 of `config_utils.py` for one zoom level, given the
bounding boxes of the input files present at the consulted zoom:
`files_area` is their `cascaded_union`; falsy bounds (`None` or `[]`)
leave the files area as-is; bounds with exactly four items are unpacked
and intersected via `clipArea`; truthy bounds of any other length raise at
the `left, bottom, right, top = bounds` unpacking. -/
def zoomArea (bboxes : List Bounds) (bounds : Option (List ℚ)) :
    Except PyErr Geometry :=
  match bounds with
  | none => .ok (.rects bboxes)
  | some [] => .ok (.rects bboxes)
  | some [l, b, r, t] => .ok (clipArea bboxes ⟨l, b, r, t⟩)
  | some _ => .error .unpackError

/-- Lines 129-163 of `config_utils.py`: the per-zoom-level loop writing
`bounds_per_zoom[zoom_level]`.  `at_zoom z` is the external engine's
`config.at_zoom(z)["input_files"]` table restricted to what the loop
reads: for each input, `none` when its resolved path is falsy (the input
is skipped), otherwise the raster's bounding box.  `zstale` is the Python
variable `zoom`, which the preceding validity loop (lines 105-110) left at
the LAST zoom level; the source reads `config.at_zoom(zoom)` inside this
loop even though the loop variable is `zoom_level`. -/
def areasLoop (zs : List Int) (at_zoom : Int → List (Option Bounds)) (zstale : Int)
    (bounds : Option (List ℚ)) : Except PyErr (List (Int × Geometry)) :=
  match zs with
  | [] => .ok []
  | zl :: rest =>
    let bboxes := (at_zoom zstale).filterMap id
    match zoomArea bboxes bounds with
    | .error e => .error e
    | .ok g =>
      match areasLoop rest at_zoom zstale bounds with
      | .error e => .error e
      | .ok tl => .ok ((zl, g) :: tl)

/-- The resolved configuration returned by `get_clean_configuration`:
`out_config["zoom_levels"]` and `out_config["process_area"]` (an
association list in zoom order, mirroring the dict keyed by
`zoom_level`). -/
structure CleanConfig where
  zoom_levels : List Int
  process_area : List (Int × Geometry)
  deriving DecidableEq, Repr

/-- Lines 63-170 of `config_utils.py` after the file-existence checks
(lines 42-62 are filesystem I/O, modelled as satisfied): resolve the zoom
levels, run the per-zoom validity loop (`valid` / `explain` stand for the
external engine's `is_valid_at_zoom` / `explain_validity_at_zoom`; the
first invalid zoom raises `Exception` with the engine's explanation),
resolve the bounds, then run the per-zoom area loop.  After the validity
loop the Python variable `zoom` holds the last zoom level (the `getD 0`
default is never consulted: the zoom resolver always returns a non-empty
list, and for an empty list the area loop reads nothing). -/
def get_clean_configuration (raw : RawConfig) (explicit_zoom : Option (List Int))
    (explicit_bounds : Option (List ℚ)) (valid : Int → Bool) (explain : Int → String)
    (at_zoom : Int → List (Option Bounds)) : Except PyErr CleanConfig :=
  match resolveZoomLevels explicit_zoom raw with
  | .error e => .error e
  | .ok zoom_levels =>
    match zoom_levels.find? (fun z => !(valid z)) with
    | some z => .error (.exception (explain z))
    | none =>
      match resolveBounds raw.process_bounds explicit_bounds with
      | .error e => .error e
      | .ok bounds =>
        let zstale := zoom_levels.getLast?.getD 0
        match areasLoop zoom_levels at_zoom zstale bounds with
        | .error e => .error e
        | .ok areas => .ok ⟨zoom_levels, areas⟩

/-- Lines 17-25 of `pyramid.py`: the fixed `DTYPE_RANGES` table mapping a
rasterio data-type name to its theoretical (min, max); a data type absent
from the table makes the dict lookup raise `KeyError`. -/
def DTYPE_RANGES : String → Option (ℚ × ℚ) := fun d =>
  if d = "uint8" then some (0, 255)
  else if d = "uint16" then some (0, 65535)
  else if d = "int16" then some (-32768, 32767)
  else if d = "uint32" then some (0, 4294967295)
  else if d = "int32" then some (-2147483648, 2147483647)
  else if d = "float32" then some (-3.4028235e38, 3.4028235e38)
  else if d = "float64" then some (-1.7976931348623157e308, 1.7976931348623157e308)
  else none

/-- The properties of the opened input raster that `raster2pyramid` reads:
`count` is the band count, `dtype` is `dtypes[0]`, `nodata` is
`nodatavals[0]` (`none` for Python `None`), and `bandMin`/`bandMax` give
the empirical minimum/maximum of the 1-indexed band read by
`input_raster.read(index)`. -/
structure InputRaster where
  count : Nat
  dtype : String
  nodata : Option ℚ
  bandMin : Nat → ℚ
  bandMax : Nat → ℚ

/-- The parts of the configuration dict assembled by `raster2pyramid` that
depend on the scale analysis: output band count and dtype, the effective
`scale_method` (`none` for Python `None`), the `scales_minmax` tuple of
per-band (low, high) pairs where `none` is Python `None`, and the
resolved nodata value. -/
structure ScalePlan where
  output_bands : Nat
  output_dtype : String
  scale_method : Option String
  scales_minmax : List (Option ℚ × Option ℚ)
  nodataval : ℚ
  deriving DecidableEq, Repr

/-- Lines 87-89 of `pyramid.py`: the `dtype_scale` loop appending
`DTYPE_RANGES[input_dtype]` once per output band.  When the dtype is
absent from the table the lookup raises `KeyError` on the first
iteration; with zero bands the loop body never runs. -/
def dtype_scale_scales (output_bands : Nat) (input_dtype : String) :
    Except PyErr (List (Option ℚ × Option ℚ)) :=
  match DTYPE_RANGES input_dtype with
  | some p => .ok (List.replicate output_bands (some p.1, some p.2))
  | none => if output_bands = 0 then .ok [] else .error .keyError

/-- Lines 76-101 of `pyramid.py` (`raster2pyramid`, the "Prepare process
parameters" block after `_get_zoom`): read band count, dtype and nodata
(`nodataval if nodataval else 0` maps both `None` and `0.0` to `0`); for
PNG output with more than 3 bands cap the band count at 3 and force the
output dtype to `uint8`; build `scales_minmax` according to the requested
scale method (`dtype_scale` from the table, `minmax_scale` from empirical
per-band ranges, `crop` as fixed `(0, 255)`, anything else leaves it
empty); finally, when the input dtype is `uint8`, override the scale
method to `None` and every pair to `(None, None)`. -/
def raster2pyramid_plan (output_format : Option String) (scale_method : Option String)
    (raster : InputRaster) : Except PyErr ScalePlan :=
  let input_dtype := raster.dtype
  let nodataval := raster.nodata.getD 0
  let output_bands := if output_format = some "PNG" ∧ raster.count > 3 then 3 else raster.count
  let output_dtype := if output_format = some "PNG" ∧ raster.count > 3 then "uint8" else raster.dtype
  let scales0 : Except PyErr (List (Option ℚ × Option ℚ)) :=
    if scale_method = some "dtype_scale" then
      dtype_scale_scales output_bands input_dtype
    else if scale_method = some "minmax_scale" then
      .ok ((List.range output_bands).map
        (fun i => (some (raster.bandMin (i + 1)), some (raster.bandMax (i + 1)))))
    else if scale_method = some "crop" then
      .ok (List.replicate output_bands (some 0, some 255))
    else .ok []
  match scales0 with
  | .error e => .error e
  | .ok scales =>
    if input_dtype = "uint8" then
      .ok ⟨output_bands, output_dtype, none,
           List.replicate output_bands ((none : Option ℚ), (none : Option ℚ)), nodataval⟩
    else
      .ok ⟨output_bands, output_dtype, scale_method, scales, nodataval⟩

/-- Lines 134-149 of `pyramid.py` (`_get_zoom`): a falsy zoom request
(`None` or `[]`) yields `minzoom = 1` and `maxzoom` from the external
`get_best_zoom_level(input_raster, pyramid_type)` estimator; a one-element
request yields that value twice; a two-element request is reordered; any
longer request assigns neither local, so the final
`return minzoom, maxzoom` raises an unbound-local error. -/
def get_zoom (zoom : Option (List Int)) (input_raster pyramid_type : String)
    (get_best_zoom_level : String → String → Int) : Except PyErr (Int × Int) :=
  match zoom with
  | none => .ok (1, get_best_zoom_level input_raster pyramid_type)
  | some [] => .ok (1, get_best_zoom_level input_raster pyramid_type)
  | some [z] => .ok (z, z)
  | some [a, b] => if a < b then .ok (a, b) else .ok (b, a)
  | some _ => .error .unboundLocalError

/-- Negative-check-then-interval handling of a two-element zoom value, as
the amended claim C2 words it: a negative entry fails with the source's
`ValueError`, otherwise the result is the closed integer interval between
the two values. -/
def zoomPairSpec (a b : Int) : Except PyErr (List Int) :=
  if a < 0 ∨ b < 0 then .error (.valueError "Zoom levels must be greater 0.")
  else .ok (intRange (min a b) (max a b))

/-- The zoom-resolution order of the amended claim C2, written directly in
first-match-wins form: (a) explicit request of length 2, (b) explicit
request of length 1, (c) a job description declaring the single zoom
field, (d) a job description declaring both the minimum and the maximum
zoom field, (e) otherwise the no-zoom error; explicit requests of length
greater than 2 fail, and a length-0 request is falsy and falls through to
the job-description fields. -/
def zoomOrderSpec (explicit : Option (List Int)) (raw : RawConfig) :
    Except PyErr (List Int) :=
  match explicit with
  | some [a, b] => zoomPairSpec a b
  | some [z] => .ok [z]
  | some (_ :: _ :: _ :: _) =>
    .error (.valueError "Zoom level parameter requires one or two value(s).")
  | _ =>
    match raw.process_zoom with
    | some z => .ok [z]
    | none =>
      match raw.process_minzoom, raw.process_maxzoom with
      | some mn, some mx => zoomPairSpec mn mx
      | _, _ => .error (.exception "No zoom level(s) provided.")

lemma twoElemBranch (a b : Int) :
    (if a < 0 ∨ b < 0 then
       (.error (.valueError "Zoom levels must be greater 0.") : Except PyErr (List Int))
     else if a < b then .ok (intRange a b) else .ok (intRange b a)) = zoomPairSpec a b := by
  unfold zoomPairSpec
  by_cases hneg : a < 0 ∨ b < 0
  · simp [hneg]
  · by_cases hab : a < b
    · simp [hneg, hab, min_eq_left hab.le, max_eq_right hab.le]
    · have hba : b ≤ a := le_of_not_lt hab
      simp [hneg, hab, min_eq_right hba, max_eq_left hba]

lemma resolveZoomLevels_pair (a b : Int) (raw : RawConfig) :
    resolveZoomLevels (some [a, b]) raw = zoomPairSpec a b := by
  simpa [resolveZoomLevels, effectiveZoom] using twoElemBranch a b

lemma resolveZoomLevels_fallback (raw : RawConfig) :
    resolveZoomLevels none raw = zoomOrderSpec none raw := by
  rcases raw with ⟨_ | z, _ | mnv, _ | mxv, pb⟩ <;>
    simp [resolveZoomLevels, effectiveZoom, configZoomList, zoomOrderSpec, ← twoElemBranch]

lemma mem_intRange (z mn mx : Int) : z ∈ intRange mn mx ↔ mn ≤ z ∧ z ≤ mx := by
  unfold intRange
  constructor
  · intro hz
    rcases List.mem_map.mp hz with ⟨i, hi, hz2⟩
    have hilt := List.mem_range.mp hi
    omega
  · rintro ⟨h1, h2⟩
    refine List.mem_map.mpr ⟨(z - mn).toNat, List.mem_range.mpr ?_, ?_⟩ <;> omega

deriving instance DecidableEq for Except

lemma intRange_self (a : Int) : intRange a a = [a] := by
  unfold intRange
  have h : a + 1 - a = 1 := by ring
  rw [h]
  simp [List.range_succ]

/-- C2 counterexample: a job description declaring `process_zoom = 5`
together with `process_minzoom = 7` and `process_maxzoom = 10`, with no
override, resolves to `[5]`: the single `process_zoom` field wins over
the min/max pair, while the claim's stated first-match-wins order
requires the min/max range `[7, 8, 9, 10]` to win. -/
theorem c2_counterexample_config_precedence :
    resolveZoomLevels none ⟨some 5, some 7, some 10, none⟩ = .ok [5] ∧
    (Except.ok [5] : Except PyErr (List Int)) ≠ .ok [7, 8, 9, 10] := by
  constructor
  · rfl
  · decide

/-- C2 (amended): zoom resolution applies the first-match-wins order of
`zoomOrderSpec`: an explicit 2-element request yields the closed range
between the two values (after the non-negativity check), an explicit
1-element request yields a single-element range, otherwise a job
description declaring the single zoom field yields a single-element
range, otherwise a job description declaring both the minimum and the
maximum zoom field yields that range, otherwise resolution fails with the
no-zoom configuration error; requests longer than two fail, and an empty
request is falsy and falls through to the job description.  In
particular, `process_minzoom = 7`, `process_maxzoom = 10` with override
zoom `[1, 4]` resolves to `[1, 2, 3, 4]`. -/
theorem c2_zoom_resolution_order :
    (∀ (explicit : Option (List Int)) (raw : RawConfig),
      resolveZoomLevels explicit raw = zoomOrderSpec explicit raw) ∧
    resolveZoomLevels (some [1, 4]) ⟨none, some 7, some 10, none⟩ = .ok [1, 2, 3, 4] := by
  constructor
  · intro explicit raw
    rcases explicit with _ | zs
    · exact resolveZoomLevels_fallback raw
    · rcases zs with _ | ⟨a, _ | ⟨b, _ | ⟨c, rest⟩⟩⟩
      · exact resolveZoomLevels_fallback raw
      · rfl
      · exact resolveZoomLevels_pair a b raw
      · rfl
  · decide

/-- C3 counterexample: the explicit one-element zoom request `[-3]`
contains a negative value, yet resolution succeeds in both paths instead
of failing: the config path yields the resolved zoom list `[-3]` and the
pyramid path yields the zoom range `(-3, -3)`. -/
theorem c3_counterexample_single_negative :
    resolveZoomLevels (some [-3]) ⟨none, none, none, none⟩ = .ok [-3] ∧
    get_zoom (some [-3]) "input.tif" "geodetic" (fun _ _ => 8) = .ok (-3, -3) := by
  constructor
  · rfl
  · rfl

/-- C3 (amended): only explicit two-element zoom requests are checked for
negative values, and only in the config-resolution path, where they fail
with `ValueError("Zoom levels must be greater 0.")`; a one-element
request with a negative value resolves to that single level, and the
raster-to-pyramid path performs no sign check at all. -/
theorem c3_negative_zoom_checks (a b : Int) (raw : RawConfig)
    (ir pt : String) (best : String → String → Int) (ha : a < 0) :
    resolveZoomLevels (some [a, b]) raw = .error (.valueError "Zoom levels must be greater 0.") ∧
    resolveZoomLevels (some [b, a]) raw = .error (.valueError "Zoom levels must be greater 0.") ∧
    resolveZoomLevels (some [a]) raw = .ok [a] ∧
    get_zoom (some [a]) ir pt best = .ok (a, a) ∧
    get_zoom (some [a, b]) ir pt best = (if a < b then .ok (a, b) else .ok (b, a)) := by
  refine ⟨?_, ?_, rfl, rfl, rfl⟩
  · rw [resolveZoomLevels_pair]
    have h : a < 0 ∨ b < 0 := Or.inl ha
    simp [zoomPairSpec, h]
  · rw [resolveZoomLevels_pair]
    have h : b < 0 ∨ a < 0 := Or.inr ha
    simp [zoomPairSpec, h]

/-- Witness for C3 at the concrete request `[-3, 2]`. -/
theorem c3_witness :
    (-3 : Int) < 0 ∧
    (resolveZoomLevels (some [-3, 2]) ⟨none, none, none, none⟩
        = .error (.valueError "Zoom levels must be greater 0.") ∧
     resolveZoomLevels (some [2, -3]) ⟨none, none, none, none⟩
        = .error (.valueError "Zoom levels must be greater 0.") ∧
     resolveZoomLevels (some [-3]) ⟨none, none, none, none⟩ = .ok [-3] ∧
     get_zoom (some [-3]) "input.tif" "geodetic" (fun _ _ => 8) = .ok (-3, -3) ∧
     get_zoom (some [-3, 2]) "input.tif" "geodetic" (fun _ _ => 8)
        = (if (-3 : Int) < 2 then .ok (-3, 2) else .ok (2, -3))) :=
  ⟨by decide,
   c3_negative_zoom_checks (-3) 2 ⟨none, none, none, none⟩ "input.tif" "geodetic"
     (fun _ _ => 8) (by decide)⟩

/-- C6: for an explicit two-element zoom request `[a, b]` with
non-negative entries, the resolved zoom range is the closed integer
interval from `min a b` to `max a b` inclusive, swapping the two entries
yields the same result in the config path and in the pyramid path, and a
tie yields the one-element range rather than an error. -/
theorem c6_two_element_zoom_range (a b : Int) (raw : RawConfig)
    (ir pt : String) (best : String → String → Int)
    (ha : 0 ≤ a) (hb : 0 ≤ b) :
    resolveZoomLevels (some [a, b]) raw = .ok (intRange (min a b) (max a b)) ∧
    (∀ z : Int, z ∈ intRange (min a b) (max a b) ↔ min a b ≤ z ∧ z ≤ max a b) ∧
    resolveZoomLevels (some [a, b]) raw = resolveZoomLevels (some [b, a]) raw ∧
    (a = b → resolveZoomLevels (some [a, b]) raw = .ok [a]) ∧
    get_zoom (some [a, b]) ir pt best = .ok (min a b, max a b) ∧
    get_zoom (some [a, b]) ir pt best = get_zoom (some [b, a]) ir pt best := by
  have hneg : ¬(a < 0 ∨ b < 0) := by omega
  have hneg2 : ¬(b < 0 ∨ a < 0) := by omega
  have hpair : resolveZoomLevels (some [a, b]) raw = .ok (intRange (min a b) (max a b)) := by
    rw [resolveZoomLevels_pair]
    simp [zoomPairSpec, hneg]
  refine ⟨hpair, fun z => mem_intRange z _ _, ?_, ?_, ?_, ?_⟩
  · rw [resolveZoomLevels_pair, resolveZoomLevels_pair]
    simp [zoomPairSpec, hneg, hneg2, min_comm, max_comm]
  · intro hab
    subst hab
    rw [hpair]
    simp [intRange_self]
  · show (if a < b then (.ok (a, b) : Except PyErr (Int × Int)) else .ok (b, a))
        = .ok (min a b, max a b)
    by_cases hab : a < b
    · simp [hab, min_eq_left hab.le, max_eq_right hab.le]
    · have hba : b ≤ a := le_of_not_lt hab
      simp [hab, min_eq_right hba, max_eq_left hba]
  · show (if a < b then (.ok (a, b) : Except PyErr (Int × Int)) else .ok (b, a))
        = (if b < a then .ok (b, a) else .ok (a, b))
    rcases lt_trichotomy a b with h | h | h
    · simp [h, asymm h]
    · subst h
      simp
    · simp [h, asymm h]

/-- Witness for C6 at the concrete request `[2, 5]`. -/
theorem c6_witness :
    0 ≤ (2 : Int) ∧ 0 ≤ (5 : Int) ∧
    (resolveZoomLevels (some [2, 5]) ⟨none, none, none, none⟩
        = .ok (intRange (min 2 5) (max 2 5)) ∧
     (∀ z : Int, z ∈ intRange (min 2 5) (max 2 5) ↔ min 2 5 ≤ z ∧ z ≤ max 2 5) ∧
     resolveZoomLevels (some [2, 5]) ⟨none, none, none, none⟩
        = resolveZoomLevels (some [5, 2]) ⟨none, none, none, none⟩ ∧
     ((2 : Int) = 5 → resolveZoomLevels (some [2, 5]) ⟨none, none, none, none⟩ = .ok [2]) ∧
     get_zoom (some [2, 5]) "input.tif" "geodetic" (fun _ _ => 8) = .ok (min 2 5, max 2 5) ∧
     get_zoom (some [2, 5]) "input.tif" "geodetic" (fun _ _ => 8)
        = get_zoom (some [5, 2]) "input.tif" "geodetic" (fun _ _ => 8)) :=
  ⟨by decide, by decide,
   c6_two_element_zoom_range 2 5 ⟨none, none, none, none⟩ "input.tif" "geodetic"
     (fun _ _ => 8) (by decide) (by decide)⟩

/-- C8 counterexample: for the explicit zoom request `[1, 2, 3]` the
raster-to-pyramid path does not fail with a configuration error: it
crashes with an unbound-local error (no branch of `_get_zoom` assigned
`minzoom`/`maxzoom`), which the spec's error taxonomy does not class as a
`ConfigurationError`. -/
theorem c8_counterexample_pyramid_crash :
    get_zoom (some [1, 2, 3]) "input.tif" "geodetic" (fun _ _ => 8)
      = .error .unboundLocalError ∧
    PyErr.unboundLocalError.isConfigurationError = false := by
  constructor
  · rfl
  · rfl

/-- C8 (amended): every explicit zoom request of length greater than 2
fails in both paths and no zoom range is returned; the config-resolution
path raises the dedicated zoom-count `ValueError` (a configuration error
in the spec's taxonomy), while the raster-to-pyramid path fails with an
unbound-local crash, which is not a configuration error. -/
theorem c8_overlong_zoom_requests (zs : List Int) (raw : RawConfig)
    (ir pt : String) (best : String → String → Int) (h : 2 < zs.length) :
    resolveZoomLevels (some zs) raw
      = .error (.valueError "Zoom level parameter requires one or two value(s).") ∧
    (PyErr.valueError "Zoom level parameter requires one or two value(s).").isConfigurationError
      = true ∧
    get_zoom (some zs) ir pt best = .error .unboundLocalError ∧
    PyErr.unboundLocalError.isConfigurationError = false := by
  rcases zs with _ | ⟨a, _ | ⟨b, _ | ⟨c, rest⟩⟩⟩
  · simp at h
  · simp at h
  · simp at h
  · exact ⟨rfl, rfl, rfl, rfl⟩

/-- Witness for C8 at the concrete request `[1, 2, 3]`. -/
theorem c8_witness :
    2 < ([1, 2, 3] : List Int).length ∧
    (resolveZoomLevels (some [1, 2, 3]) ⟨none, none, none, none⟩
        = .error (.valueError "Zoom level parameter requires one or two value(s).") ∧
     (PyErr.valueError "Zoom level parameter requires one or two value(s).").isConfigurationError
        = true ∧
     get_zoom (some [1, 2, 3]) "input.tif" "geodetic" (fun _ _ => 8)
        = .error .unboundLocalError ∧
     PyErr.unboundLocalError.isConfigurationError = false) :=
  ⟨by decide,
   c8_overlong_zoom_requests [1, 2, 3] ⟨none, none, none, none⟩ "input.tif" "geodetic"
     (fun _ _ => 8) (by decide)⟩

/-- C9: in the raster-to-pyramid flow, a falsy zoom request (`None` or an
empty list) yields minimum zoom exactly 1 and maximum zoom exactly the
value of the external best-zoom-for-resolution estimator applied to the
input raster and the pyramid type. -/
theorem c9_default_zoom_fallback (ir pt : String) (best : String → String → Int) :
    get_zoom none ir pt best = .ok (1, best ir pt) ∧
    get_zoom (some []) ir pt best = .ok (1, best ir pt) :=
  ⟨rfl, rfl⟩

lemma areasLoop_four_bounds (zs : List Int) (at_zoom : Int → List (Option Bounds))
    (zstale : Int) (l b r t : ℚ) :
    areasLoop zs at_zoom zstale (some [l, b, r, t]) =
      .ok (zs.map (fun zl => (zl, clipArea ((at_zoom zstale).filterMap id) ⟨l, b, r, t⟩))) := by
  induction zs with
  | nil => rfl
  | cons z rest ih => simp [areasLoop, zoomArea, ih]

lemma intersectRects_eq_nil (rs : List Bounds) (s : Bounds)
    (h : ∀ bb ∈ rs, bb.inter s = none) : intersectRects rs s = [] := by
  unfold intersectRects
  exact List.filterMap_eq_nil_iff.mpr h

/-- C4: when the effective bounds are a four-value list, the per-zoom area
loop succeeds and produces exactly one `process_area` entry per zoom level
of the resolved range (no zoom level is ever removed); when the
intersection of the files area with the bounds rectangle has a geometry
type outside the allowed list, that entry is the substituted empty
polygon; and when the bounds rectangle is disjoint from every input
bounding box, that entry is the empty intersection geometry — in both
cases an empty geometry, with no error raised. -/
theorem c4_process_area_entries (zs : List Int) (at_zoom : Int → List (Option Bounds))
    (zstale : Int) (l b r t : ℚ) :
    areasLoop zs at_zoom zstale (some [l, b, r, t]) =
      .ok (zs.map (fun zl => (zl, clipArea ((at_zoom zstale).filterMap id) ⟨l, b, r, t⟩))) ∧
    (zs.map (fun zl => (zl, clipArea ((at_zoom zstale).filterMap id) ⟨l, b, r, t⟩))).map
        Prod.fst = zs ∧
    (rectsGeomType (intersectRects ((at_zoom zstale).filterMap id) ⟨l, b, r, t⟩)
        ∉ allowedGeomTypes →
      clipArea ((at_zoom zstale).filterMap id) ⟨l, b, r, t⟩ = .emptyPolygon ∧
      (clipArea ((at_zoom zstale).filterMap id) ⟨l, b, r, t⟩).isEmpty = true) ∧
    ((∀ z : Int, ∀ bb ∈ (at_zoom z).filterMap id, bb.inter ⟨l, b, r, t⟩ = none) →
      clipArea ((at_zoom zstale).filterMap id) ⟨l, b, r, t⟩ = .rects [] ∧
      (clipArea ((at_zoom zstale).filterMap id) ⟨l, b, r, t⟩).isEmpty = true) := by
  refine ⟨areasLoop_four_bounds zs at_zoom zstale l b r t, ?_, ?_, ?_⟩
  · simp [Function.comp_def]
  · intro h
    simp only [clipArea]
    rw [if_neg h]
    exact ⟨rfl, rfl⟩
  · intro h
    have hnil : intersectRects ((at_zoom zstale).filterMap id) ⟨l, b, r, t⟩ = [] :=
      intersectRects_eq_nil _ _ (h zstale)
    have hmem : rectsGeomType (intersectRects ((at_zoom zstale).filterMap id) ⟨l, b, r, t⟩)
        ∈ allowedGeomTypes := by
      rw [hnil]
      decide
    simp only [clipArea]
    rw [if_pos hmem, hnil]
    exact ⟨rfl, rfl⟩

/-- Witness for C4: one zoom level, one input box `(0,0,1,1)`, user bounds
`(2,2,3,3)` disjoint from it: the loop yields the empty geometry without
raising. -/
theorem c4_witness :
    areasLoop [5] (fun _ => [some ⟨0, 0, 1, 1⟩]) 5 (some [2, 2, 3, 3])
      = .ok [(5, .rects [])] ∧
    (Geometry.rects []).isEmpty = true := by
  have hd : ∀ z : Int, ∀ bb ∈ ((fun _ : Int => [some (⟨0, 0, 1, 1⟩ : Bounds)]) z).filterMap id,
      bb.inter ⟨2, 2, 3, 3⟩ = none := by
    intro z bb hbb
    simp only [List.filterMap_cons, id, List.filterMap_nil, List.mem_singleton] at hbb
    subst hbb
    decide
  have h := c4_process_area_entries [5] (fun _ => [some ⟨0, 0, 1, 1⟩]) 5 2 2 3 3
  rcases h with ⟨h1, _, _, h4⟩
  rcases h4 hd with ⟨he, _⟩
  rw [he] at h1
  exact ⟨h1, rfl⟩

/-- C1 (code bug, evaluated at the failing input): minzoom 5, maxzoom 6,
the only input file absent at zoom 5 and present at zoom 6 with bounding
box `(0,0,1,1)`.  The source reads `config.at_zoom(zoom)` inside the
per-zoom loop, where `zoom` is the stale variable left at the last zoom
level by the preceding validity loop, so the `process_area` entry for
zoom 5 is built from the zoom-6 input set and equals the zoom-6 bounding
box instead of the empty union of the (absent) zoom-5 inputs. -/
theorem c1_stale_zoom_in_area_loop :
    ((fun z : Int => if z = 6 then [some (⟨0, 0, 1, 1⟩ : Bounds)] else [none]) 5).filterMap id
      = [] ∧
    get_clean_configuration ⟨none, some 5, some 6, none⟩ none none
        (fun _ => true) (fun _ => "")
        (fun z => if z = 6 then [some ⟨0, 0, 1, 1⟩] else [none])
      = .ok ⟨[5, 6], [(5, .rects [⟨0, 0, 1, 1⟩]), (6, .rects [⟨0, 0, 1, 1⟩])]⟩ := by
  constructor
  · rfl
  · rfl

/-- C10 counterexample: a job description whose own `process_bounds` is
the empty list (length 0, not 4), with no caller override, neither raises
the dedicated invalid-bounds-count error nor fails later: the empty list
is falsy, the unpacking is never reached, and resolution completes with
the plain files area. -/
theorem c10_counterexample_empty_bounds :
    ([] : List ℚ).length ≠ 4 ∧
    get_clean_configuration ⟨some 4, none, none, some []⟩ none none
        (fun _ => true) (fun _ => "") (fun _ => [some ⟨0, 0, 1, 1⟩])
      = .ok ⟨[4], [(4, .rects [⟨0, 0, 1, 1⟩])]⟩ := by
  constructor
  · decide
  · rfl

lemma zoomArea_bad_bounds (bboxes : List Bounds) (bl : List ℚ)
    (h1 : bl ≠ []) (h2 : bl.length ≠ 4) :
    zoomArea bboxes (some bl) = .error .unpackError := by
  rcases bl with _ | ⟨a, _ | ⟨b, _ | ⟨c, _ | ⟨d, _ | ⟨e, tl⟩⟩⟩⟩⟩
  · exact absurd rfl h1
  · rfl
  · rfl
  · rfl
  · simp at h2
  · rfl

/-- C10 (amended): the exactly-4-values bounds check applies only to
caller-supplied override bounds; job-description bounds of any length
pass validation untouched, and a malformed non-empty job-description
bounds value fails later, at the four-way unpacking in the per-zoom area
loop — but an empty bounds list is falsy, skips the unpacking, and never
fails at all. -/
theorem c10_bounds_check_only_on_override (bl : List ℚ) (z0 : Int) (zs : List Int)
    (at_zoom : Int → List (Option Bounds)) (zstale : Int)
    (h1 : bl ≠ []) (h2 : bl.length ≠ 4) :
    resolveBounds (some bl) none = .ok (some bl) ∧
    areasLoop (z0 :: zs) at_zoom zstale (some bl) = .error .unpackError := by
  constructor
  · rfl
  · simp [areasLoop, zoomArea_bad_bounds _ bl h1 h2]

/-- Witness for C10 at the concrete malformed bounds `[1, 2]`. -/
theorem c10_witness :
    ([1, 2] : List ℚ) ≠ [] ∧ ([1, 2] : List ℚ).length ≠ 4 ∧
    (resolveBounds (some [1, 2]) none = .ok (some [1, 2]) ∧
     areasLoop [4] (fun _ => [some ⟨0, 0, 1, 1⟩]) 4 (some [1, 2]) = .error .unpackError) :=
  ⟨by decide, by decide,
   c10_bounds_check_only_on_override [1, 2] 4 [] (fun _ => [some ⟨0, 0, 1, 1⟩]) 4
     (by decide) (by decide)⟩

/-- C5: for an input raster whose data type is 8-bit unsigned, the
produced plan always has effective scale method `None` and every band
pair `(None, None)`, whatever scale method was requested; the override is
applied after band-count determination, so the number of `(None, None)`
pairs equals the (possibly PNG-capped) output band count. -/
theorem c5_uint8_override (fmt scale_method : Option String) (raster : InputRaster)
    (h : raster.dtype = "uint8") :
    raster2pyramid_plan fmt scale_method raster =
      .ok ⟨(if fmt = some "PNG" ∧ raster.count > 3 then 3 else raster.count),
           (if fmt = some "PNG" ∧ raster.count > 3 then "uint8" else raster.dtype),
           none,
           List.replicate (if fmt = some "PNG" ∧ raster.count > 3 then 3 else raster.count)
             ((none : Option ℚ), (none : Option ℚ)),
           raster.nodata.getD 0⟩ := by
  unfold raster2pyramid_plan
  rw [h]
  by_cases h1 : scale_method = some "dtype_scale"
  · simp [h1, dtype_scale_scales, DTYPE_RANGES]
  · by_cases h2 : scale_method = some "minmax_scale"
    · simp [h1, h2]
    · by_cases h3 : scale_method = some "crop"
      · simp [h1, h2, h3]
      · simp [h1, h2, h3]

/-- Witness for C5: a 4-band uint8 raster with PNG output and
`dtype_scale` requested yields mode `None` and three `(None, None)`
pairs. -/
theorem c5_witness :
    (⟨4, "uint8", some 7, fun _ => 0, fun _ => 9⟩ : InputRaster).dtype = "uint8" ∧
    raster2pyramid_plan (some "PNG") (some "dtype_scale")
        ⟨4, "uint8", some 7, fun _ => 0, fun _ => 9⟩
      = .ok ⟨3, "uint8", none, List.replicate 3 ((none : Option ℚ), (none : Option ℚ)), 7⟩ :=
  ⟨rfl, by
    simpa using c5_uint8_override (some "PNG") (some "dtype_scale")
      ⟨4, "uint8", some 7, fun _ => 0, fun _ => 9⟩ rfl⟩

/-- C7: the `DTYPE_RANGES` table holds exactly the seven stated pairs; in
`dtype_scale` mode every output band is assigned the table pair of the
input data type; a uint16 input therefore yields `(0, 65535)` for every
band of the final plan; and a data type absent from the table fails with
the dict-lookup `KeyError` instead of producing a plan. -/
theorem c7_dtype_range_table (fmt : Option String) (raster : InputRaster) (n : Nat)
    (hc : 0 < raster.count) :
    (DTYPE_RANGES "uint8" = some (0, 255) ∧
     DTYPE_RANGES "uint16" = some (0, 65535) ∧
     DTYPE_RANGES "int16" = some (-32768, 32767) ∧
     DTYPE_RANGES "uint32" = some (0, 4294967295) ∧
     DTYPE_RANGES "int32" = some (-2147483648, 2147483647) ∧
     DTYPE_RANGES "float32" = some (-3.4028235e38, 3.4028235e38) ∧
     DTYPE_RANGES "float64" = some (-1.7976931348623157e308, 1.7976931348623157e308)) ∧
    (∀ (d : String) (lo hi : ℚ), DTYPE_RANGES d = some (lo, hi) →
      dtype_scale_scales n d = .ok (List.replicate n (some lo, some hi))) ∧
    (raster.dtype = "uint16" →
      raster2pyramid_plan fmt (some "dtype_scale") raster =
        .ok ⟨(if fmt = some "PNG" ∧ raster.count > 3 then 3 else raster.count),
             (if fmt = some "PNG" ∧ raster.count > 3 then "uint8" else raster.dtype),
             some "dtype_scale",
             List.replicate (if fmt = some "PNG" ∧ raster.count > 3 then 3 else raster.count)
               (some (0 : ℚ), some (65535 : ℚ)),
             raster.nodata.getD 0⟩) ∧
    (DTYPE_RANGES raster.dtype = none →
      raster2pyramid_plan fmt (some "dtype_scale") raster = .error .keyError) := by
  refine ⟨⟨rfl, rfl, rfl, rfl, rfl, rfl, rfl⟩, ?_, ?_, ?_⟩
  · intro d lo hi hd
    unfold dtype_scale_scales
    rw [hd]
  · intro h16
    unfold raster2pyramid_plan
    rw [h16]
    simp [dtype_scale_scales, DTYPE_RANGES]
  · intro habs
    have hu8 : raster.dtype ≠ "uint8" := by
      intro hq
      rw [hq] at habs
      exact absurd habs (by decide)
    unfold raster2pyramid_plan
    have hb : ¬(if fmt = some "PNG" ∧ raster.count > 3 then 3 else raster.count) = 0 := by
      by_cases hp : fmt = some "PNG" ∧ raster.count > 3
      · simp [hp]
      · simp [hp]
        omega
    simp [dtype_scale_scales, habs, hb]

/-- Witness for C7: a 2-band uint16 raster in `dtype_scale` mode yields
`(0, 65535)` for both bands. -/
theorem c7_witness :
    0 < (⟨2, "uint16", none, fun _ => 0, fun _ => 0⟩ : InputRaster).count ∧
    raster2pyramid_plan none (some "dtype_scale") ⟨2, "uint16", none, fun _ => 0, fun _ => 0⟩
      = .ok ⟨2, "uint16", some "dtype_scale",
             List.replicate 2 (some (0 : ℚ), some (65535 : ℚ)), 0⟩ :=
  ⟨by decide, by
    simpa using (c7_dtype_range_table none ⟨2, "uint16", none, fun _ => 0, fun _ => 0⟩ 0
      (by decide)).2.2.1 rfl⟩
